import Mathlib

/-!
Shallow embedding of `src/Helper Files/orders_db.py` (class `OrdersDB`):
a SQLite-backed store with two tables, `program_runs` and `orders`, plus
the dedup query, run ingestion pipeline, retention flush and backups.

Modelling conventions:
* Timestamps are seconds since an epoch (`Nat`); a calendar date is the
  day index `t / 86400`.  SQLite's `CAST(julianday(a) - julianday(b) AS
  INTEGER)` truncates the fractional day difference toward zero, which
  for non-negative ages coincides with Nat division of the second
  difference by 86400.
* SQLite exceptions that the Python code catches are modelled by the
  corresponding branch returning the unchanged state (the `with self.con`
  context manager rolls the transaction back); exceptions that escape a
  Python `try` (or occur outside one) are modelled with `Except` /
  explicit error fields.
* Failure injection for operations that can fail at runtime (backups,
  the run-row INSERT, individual DELETE statements) is passed in through
  an `Env` record, mirroring which step of the Python code raised.
-/

namespace OrdersDB

/-- One record of the candidate order batch handed to `OrdersDB`: a dict
with keys order-id, purchase-date, payments-date, buyer-name
(src lines 62, 110-120). -/
structure Order where
  orderId : String
  purchaseDate : String
  paymentsDate : String
  buyerName : String
deriving DecidableEq, Repr

/-- A row of the `program_runs` table (src lines 42-44): integer
autoincrement id, `run_time` timestamp, weekday. -/
structure RunRow where
  id : Nat
  runTime : Nat
  weekday : Nat
deriving DecidableEq, Repr

/-- A row of the `orders` table (src lines 50-57): `order_id` is the
TEXT primary key, `run` is a NOT NULL foreign key into `program_runs`
with ON DELETE CASCADE.  `date_added` is a calendar date (day index). -/
structure OrderRow where
  orderId : String
  purchaseDate : String
  paymentsDate : String
  buyerName : String
  dateAdded : Nat
  run : Nat
deriving DecidableEq, Repr

/-- The durable store: contents of the two tables. -/
structure DBState where
  runs : List RunRow
  orders : List OrderRow
deriving DecidableEq, Repr

/-- Module-level constant `ORDERS_ARCHIVE_DAYS = 14` (src line 10). -/
def ORDERS_ARCHIVE_DAYS : Nat := 14

/-- Calendar date (day index) of a timestamp, i.e. the `YYYY-MM-DD` part
of a `'YYYY-MM-DD HH:MM:SS'` string in the Python code. -/
def dateOf (t : Nat) : Nat := t / 86400

/-- `OrdersDB._get_order_ids_in_db` (src lines 62-73): SELECT order_id
FROM orders, returned as a list in table order. -/
def get_order_ids_in_db (db : DBState) : List String :=
  db.orders.map (fun r => r.orderId)

/-- `OrdersDB.get_new_orders_only` (src lines 191-198): the list
comprehension keeping each passed order whose order-id is not among the
ids already stored. -/
def get_new_orders_only (ordersArg : List Order) (db : DBState) : List Order :=
  ordersArg.filter (fun o => !((get_order_ids_in_db db).contains o.orderId))

/-- Does a run with this id exist in `program_runs`?  With
`PRAGMA foreign_keys = 1` (src line 29) an order INSERT whose `run`
value references no run row fails its foreign key constraint. -/
def runIdExists (db : DBState) (run_id : Nat) : Bool :=
  db.runs.any (fun r => r.id == run_id)

/-- List `contains` agrees with membership on strings. -/
theorem contains_eq_decide_mem (l : List String) (a : String) :
    l.contains a = decide (a ∈ l) := by
  simp [List.contains]

/-- Appending one order row appends its id to the stored-id list. -/
theorem get_order_ids_append (db : DBState) (row : OrderRow) :
    get_order_ids_in_db { db with orders := db.orders ++ [row] } =
      get_order_ids_in_db db ++ [row.orderId] := by
  simp [get_order_ids_in_db]

/-- `OrdersDB.insert_new_order` (src lines 122-134): a single-row INSERT
INTO orders inside its own transaction.  A constraint violation
(duplicate `order_id` primary key, bad foreign key) raises an exception
that the `except` clauses catch and log, so the method always returns
normally and a failed row leaves the store unchanged. -/
def insert_new_order (db : DBState) (order_id purchase_date payments_date buyer_name : String)
    (date_added : Nat) (run_id : Nat) : DBState :=
  if (get_order_ids_in_db db).contains order_id || !(runIdExists db run_id) then db
  else { db with orders :=
    db.orders ++ [⟨order_id, purchase_date, payments_date, buyer_name, date_added, run_id⟩] }

/-- `OrdersDB.insert_multiple_orders` (src lines 110-120): loops over the
batch calling `insert_new_order` on each member's fields, with
`date_added` the current calendar date, then logs a summary. -/
def insert_multiple_orders (db : DBState) (ordersArg : List Order)
    (date_added : Nat) (run_id : Nat) : DBState :=
  ordersArg.foldl
    (fun s o => insert_new_order s o.orderId o.purchaseDate o.paymentsDate o.buyerName
      date_added run_id) db

/-- Inserting a row whose order-id is already stored leaves the store
entirely unchanged (the INSERT raises, the transaction rolls back, the
exception is caught). -/
theorem insert_new_order_dup (db : DBState) (order_id purchase_date payments_date buyer_name :
    String) (date_added run_id : Nat) (h : order_id ∈ get_order_ids_in_db db) :
    insert_new_order db order_id purchase_date payments_date buyer_name date_added run_id = db := by
  simp [insert_new_order, contains_eq_decide_mem, h]

/-- An id stored before an insert is still stored after it. -/
theorem mem_ids_insert_new_order (db : DBState) (a order_id purchase_date payments_date
    buyer_name : String) (date_added run_id : Nat) (h : a ∈ get_order_ids_in_db db) :
    a ∈ get_order_ids_in_db
      (insert_new_order db order_id purchase_date payments_date buyer_name date_added run_id) := by
  unfold insert_new_order
  split
  · exact h
  · rw [get_order_ids_append, List.mem_append]
    exact Or.inl h

/-- A single-row insert preserves distinctness of the stored ids. -/
theorem nodup_insert_new_order (db : DBState) (order_id purchase_date payments_date
    buyer_name : String) (date_added run_id : Nat) (h : (get_order_ids_in_db db).Nodup) :
    (get_order_ids_in_db
      (insert_new_order db order_id purchase_date payments_date buyer_name date_added run_id)).Nodup := by
  unfold insert_new_order
  split
  · exact h
  · rename_i hcond
    rw [Bool.or_eq_true, not_or] at hcond
    have hnotmem : order_id ∉ get_order_ids_in_db db := by
      intro hmem
      exact hcond.1 (by rw [contains_eq_decide_mem]; exact decide_eq_true hmem)
    rw [get_order_ids_append, List.nodup_append]
    refine ⟨h, List.nodup_singleton _, ?_⟩
    intro a ha hb
    rw [List.mem_singleton] at hb
    subst hb
    exact hnotmem ha

/-- A batched insert preserves distinctness of the stored ids. -/
theorem nodup_insert_multiple_orders (ordersArg : List Order) (db : DBState)
    (date_added run_id : Nat) (h : (get_order_ids_in_db db).Nodup) :
    (get_order_ids_in_db (insert_multiple_orders db ordersArg date_added run_id)).Nodup := by
  induction ordersArg generalizing db with
  | nil => exact h
  | cons o rest ih =>
    exact ih _ (nodup_insert_new_order _ _ _ _ _ _ _ h)

/-- A member of the batch whose id is already stored contributes nothing
to the fold: the remaining members are processed exactly as if it were
absent. -/
theorem insert_multiple_orders_skips_dup (pre post : List Order) (dup : Order) (db : DBState)
    (date_added run_id : Nat) (h : dup.orderId ∈ get_order_ids_in_db db) :
    insert_multiple_orders db (pre ++ dup :: post) date_added run_id =
      insert_multiple_orders db (pre ++ post) date_added run_id := by
  induction pre generalizing db with
  | nil =>
    simp only [List.nil_append, insert_multiple_orders, List.foldl_cons]
    rw [insert_new_order_dup db _ _ _ _ _ _ h]
  | cons o rest ih =>
    simp only [List.cons_append, insert_multiple_orders, List.foldl_cons]
    exact ih _ (mem_ids_insert_new_order _ _ _ _ _ _ _ _ h)

/-- C2: order-id uniqueness is an invariant of insertion.  Starting from
a store with pairwise distinct ids, (a) any batched insert keeps the ids
pairwise distinct, (b) inserting a row whose id is already stored is
rejected and leaves the store — in particular the previously stored row —
unchanged, and (c) a rejected duplicate inside a batch does not abort the
rest of the batch: the remaining members are inserted exactly as if the
duplicate were not in the batch. -/
theorem C2_unique_ids_invariant (db : DBState) (batch : List Order) (date_added run_id : Nat)
    (hnd : (get_order_ids_in_db db).Nodup) :
    (get_order_ids_in_db (insert_multiple_orders db batch date_added run_id)).Nodup ∧
    (∀ oid p q b d r, oid ∈ get_order_ids_in_db db →
      insert_new_order db oid p q b d r = db) ∧
    (∀ pre post (dup : Order), dup.orderId ∈ get_order_ids_in_db db →
      insert_multiple_orders db (pre ++ dup :: post) date_added run_id =
        insert_multiple_orders db (pre ++ post) date_added run_id) := by
  refine ⟨nodup_insert_multiple_orders batch db date_added run_id hnd, ?_, ?_⟩
  · intro oid p q b d r h
    exact insert_new_order_dup db oid p q b d r h
  · intro pre post dup h
    exact insert_multiple_orders_skips_dup pre post dup db date_added run_id h

/-- Witness for C2 at a concrete store holding order "A1" under run 1. -/
theorem C2_unique_ids_invariant_witness :
    (get_order_ids_in_db
      (insert_multiple_orders ⟨[⟨1, 0, 1⟩], [⟨"A1", "p", "q", "Bob", 0, 1⟩]⟩
        [⟨"A1", "p", "q", "Bob"⟩, ⟨"A2", "p", "q", "Eve"⟩] 0 1)).Nodup ∧
    (∀ oid p q b d r,
      oid ∈ get_order_ids_in_db ⟨[⟨1, 0, 1⟩], [⟨"A1", "p", "q", "Bob", 0, 1⟩]⟩ →
      insert_new_order ⟨[⟨1, 0, 1⟩], [⟨"A1", "p", "q", "Bob", 0, 1⟩]⟩ oid p q b d r =
        ⟨[⟨1, 0, 1⟩], [⟨"A1", "p", "q", "Bob", 0, 1⟩]⟩) ∧
    (∀ pre post (dup : Order),
      dup.orderId ∈ get_order_ids_in_db ⟨[⟨1, 0, 1⟩], [⟨"A1", "p", "q", "Bob", 0, 1⟩]⟩ →
      insert_multiple_orders ⟨[⟨1, 0, 1⟩], [⟨"A1", "p", "q", "Bob", 0, 1⟩]⟩
          (pre ++ dup :: post) 0 1 =
        insert_multiple_orders ⟨[⟨1, 0, 1⟩], [⟨"A1", "p", "q", "Bob", 0, 1⟩]⟩ (pre ++ post) 0 1) :=
  C2_unique_ids_invariant ⟨[⟨1, 0, 1⟩], [⟨"A1", "p", "q", "Bob", 0, 1⟩]⟩
    [⟨"A1", "p", "q", "Bob"⟩, ⟨"A2", "p", "q", "Eve"⟩] 0 1 (by decide)

/-- C10: `get_new_orders_only` filters only against the stored ids, never
within the batch itself: all batch records sharing an identifier that is
absent from the store survive, with their multiplicity and order. -/
theorem C10_no_intra_batch_dedup (C : List Order) (db : DBState) (i : String)
    (h : i ∉ get_order_ids_in_db db) :
    (get_new_orders_only C db).filter (fun o => o.orderId == i) =
      C.filter (fun o => o.orderId == i) := by
  unfold get_new_orders_only
  rw [List.filter_filter]
  apply List.filter_congr
  intro o _
  by_cases hoi : o.orderId = i
  · have hc : (get_order_ids_in_db db).contains o.orderId = false := by
      rw [hoi, contains_eq_decide_mem, decide_eq_false_iff_not]
      exact h
    rw [hc]
    simp
  · simp [hoi]

/-- Witness for C10: a batch holding the same fresh id twice keeps both
records. -/
theorem C10_no_intra_batch_dedup_witness :
    "A9" ∉ get_order_ids_in_db ⟨[⟨1, 0, 1⟩], [⟨"A1", "p", "q", "Bob", 0, 1⟩]⟩ ∧
    (get_new_orders_only [⟨"A9", "p", "q", "Bob"⟩, ⟨"A9", "p2", "q2", "Eve"⟩]
        ⟨[⟨1, 0, 1⟩], [⟨"A1", "p", "q", "Bob", 0, 1⟩]⟩).filter (fun o => o.orderId == "A9") =
      List.filter (fun o => o.orderId == "A9")
        [⟨"A9", "p", "q", "Bob"⟩, ⟨"A9", "p2", "q2", "Eve"⟩] :=
  ⟨by decide,
    C10_no_intra_batch_dedup [⟨"A9", "p", "q", "Bob"⟩, ⟨"A9", "p2", "q2", "Eve"⟩]
      ⟨[⟨1, 0, 1⟩], [⟨"A1", "p", "q", "Bob", 0, 1⟩]⟩ "A9" (by decide)⟩

/-- C1: for every candidate batch `C` and store state, `get_new_orders_only`
returns a sublist of `C` (the original relative order is preserved) and a
record is in the result exactly when it is in `C` and its order-id is not
among the stored ids, tested by exact string equality. -/
theorem C1_dedup_exact (C : List Order) (db : DBState) :
    List.Sublist (get_new_orders_only C db) C ∧
    (∀ o : Order, o ∈ get_new_orders_only C db ↔
      o ∈ C ∧ o.orderId ∉ get_order_ids_in_db db) := by
  constructor
  · exact List.filter_sublist C
  · intro o
    simp [get_new_orders_only, List.mem_filter]

/-- Witness for C1 at a concrete batch and store. -/
theorem C1_dedup_exact_witness :
    (List.Sublist
      (get_new_orders_only [⟨"A1", "p", "q", "Bob"⟩, ⟨"A2", "p", "q", "Eve"⟩]
        ⟨[⟨1, 0, 1⟩], [⟨"A1", "p", "q", "Bob", 0, 1⟩]⟩)
      [⟨"A1", "p", "q", "Bob"⟩, ⟨"A2", "p", "q", "Eve"⟩]) ∧
    (∀ o : Order, o ∈ get_new_orders_only [⟨"A1", "p", "q", "Bob"⟩, ⟨"A2", "p", "q", "Eve"⟩]
        ⟨[⟨1, 0, 1⟩], [⟨"A1", "p", "q", "Bob", 0, 1⟩]⟩ ↔
      o ∈ [⟨"A1", "p", "q", "Bob"⟩, ⟨"A2", "p", "q", "Eve"⟩] ∧
      o.orderId ∉ get_order_ids_in_db ⟨[⟨1, 0, 1⟩], [⟨"A1", "p", "q", "Bob", 0, 1⟩]⟩) :=
  C1_dedup_exact [⟨"A1", "p", "q", "Bob"⟩, ⟨"A2", "p", "q", "Eve"⟩]
    ⟨[⟨1, 0, 1⟩], [⟨"A1", "p", "q", "Bob", 0, 1⟩]⟩

/-- Integer day-count age of a run: the SQL expression
`CAST(julianday(now) - julianday(run_time) AS INTEGER)` (src line 171),
truncating the fractional day difference. -/
def ageDaysInt (now runTime : Nat) : Nat := (now - runTime) / 86400

/-- `OrdersDB.__get_old_runs_ids` (src lines 165-178): SELECT id FROM
program_runs WHERE the truncated day age is strictly greater than
`archive_days`. -/
def get_old_runs_ids (db : DBState) (now archive_days : Nat) : List Nat :=
  (db.runs.filter (fun r => decide (archive_days < ageDaysInt now r.runTime))).map
    (fun r => r.id)

/-- One `DELETE FROM program_runs WHERE id = :run` (src line 158): with
`PRAGMA foreign_keys = 1` the ON DELETE CASCADE clause also removes
every order row referencing that run. -/
def deleteRunCascade (db : DBState) (run_id : Nat) : DBState :=
  { runs := db.runs.filter (fun r => !(r.id == run_id)),
    orders := db.orders.filter (fun o => !(o.run == run_id)) }

/-- The DELETE loop of `_flush_old_orders` (src lines 156-158): the
statements run one by one inside a single `with self.con` transaction;
the first failing DELETE raises out of the loop, so the remaining ids
are never attempted and `none` models the aborted transaction. -/
def execRunDeletes (fails : Nat → Bool) : DBState → List Nat → Option DBState
  | db, [] => some db
  | db, run_id :: rest =>
    if fails run_id then none
    else execRunDeletes fails (deleteRunCascade db run_id) rest

/-- `OrdersDB._flush_old_orders` (src lines 152-163): computes the stale
run ids, then runs the DELETE loop in one transaction under one `try`.
On an exception the context manager rolls the whole transaction back and
the `except` clauses log and swallow it, so the store is unchanged. -/
def flush_old_orders (db : DBState) (fails : Nat → Bool) (now archive_days : Nat) : DBState :=
  match execRunDeletes fails db (get_old_runs_ids db now archive_days) with
  | some db2 => db2
  | none => db

/-- C3: the stale-run query selects exactly the runs whose truncated
integer day age strictly exceeds `archive_days`; a run aged exactly
`archive_days` days is not selected, and a run one day older is. -/
theorem C3_retention_boundary (db : DBState) (now d : Nat)
    (hnd : (db.runs.map (fun r => r.id)).Nodup) :
    (∀ rid, rid ∈ get_old_runs_ids db now d ↔
      ∃ r ∈ db.runs, r.id = rid ∧ d < ageDaysInt now r.runTime) ∧
    (∀ r ∈ db.runs, ageDaysInt now r.runTime = d → r.id ∉ get_old_runs_ids db now d) ∧
    (∀ r ∈ db.runs, ageDaysInt now r.runTime = d + 1 → r.id ∈ get_old_runs_ids db now d) := by
  have hmem : ∀ rid, rid ∈ get_old_runs_ids db now d ↔
      ∃ r ∈ db.runs, r.id = rid ∧ d < ageDaysInt now r.runTime := by
    intro rid
    simp only [get_old_runs_ids, List.mem_map, List.mem_filter, decide_eq_true_eq]
    constructor
    · rintro ⟨r, ⟨hr, hage⟩, hid⟩
      exact ⟨r, hr, hid, hage⟩
    · rintro ⟨r, hr, hid, hage⟩
      exact ⟨r, ⟨hr, hage⟩, hid⟩
  refine ⟨hmem, ?_, ?_⟩
  · intro r hr hage hcontra
    rcases (hmem r.id).mp hcontra with ⟨r', hr', hid, hage'⟩
    have : r' = r := List.inj_on_of_nodup_map hnd hr' hr hid
    subst this
    rw [hage] at hage'
    exact lt_irrefl d hage'
  · intro r hr hage
    exact (hmem r.id).mpr ⟨r, hr, rfl, by rw [hage]; exact Nat.lt_succ_self d⟩

/-- Witness for C3 at a store with runs aged exactly 14 and 15 days. -/
theorem C3_retention_boundary_witness :
    (([⟨1, 86400, 1⟩, ⟨2, 0, 1⟩] : List RunRow).map (fun r => r.id)).Nodup ∧
    ((∀ rid, rid ∈ get_old_runs_ids ⟨[⟨1, 86400, 1⟩, ⟨2, 0, 1⟩], []⟩ (15 * 86400) 14 ↔
      ∃ r ∈ ([⟨1, 86400, 1⟩, ⟨2, 0, 1⟩] : List RunRow), r.id = rid ∧
        14 < ageDaysInt (15 * 86400) r.runTime) ∧
    (∀ r ∈ ([⟨1, 86400, 1⟩, ⟨2, 0, 1⟩] : List RunRow),
      ageDaysInt (15 * 86400) r.runTime = 14 →
        r.id ∉ get_old_runs_ids ⟨[⟨1, 86400, 1⟩, ⟨2, 0, 1⟩], []⟩ (15 * 86400) 14) ∧
    (∀ r ∈ ([⟨1, 86400, 1⟩, ⟨2, 0, 1⟩] : List RunRow),
      ageDaysInt (15 * 86400) r.runTime = 14 + 1 →
        r.id ∈ get_old_runs_ids ⟨[⟨1, 86400, 1⟩, ⟨2, 0, 1⟩], []⟩ (15 * 86400) 14)) :=
  ⟨by decide, C3_retention_boundary ⟨[⟨1, 86400, 1⟩, ⟨2, 0, 1⟩], []⟩ (15 * 86400) 14 (by decide)⟩

/-- A concrete store for the flush counterexample: two runs, aged 16 and
15 days at the chosen current moment, each owning one order. -/
def c4db : DBState :=
  ⟨[⟨1, 0, 1⟩, ⟨2, 86400, 2⟩],
   [⟨"A", "p", "q", "Bob", 0, 1⟩, ⟨"B", "p", "q", "Eve", 1, 2⟩]⟩

/-- Failure injection for the flush counterexample: only the DELETE for
run 1 fails. -/
def c4fails : Nat → Bool := fun run_id => run_id == 1

/-- C4 counterexample: both runs are stale and run 2's own DELETE would
succeed, yet after `_flush_old_orders` with run 1's DELETE failing, run 2
and its order are still present — the failure aborted the deletion of
the other stale run, contradicting best-effort-per-run. -/
theorem C4_counterexample :
    2 ∈ get_old_runs_ids c4db (16 * 86400) 14 ∧
    c4fails 2 = false ∧
    flush_old_orders c4db c4fails (16 * 86400) 14 = c4db := by
  refine ⟨by decide, by decide, ?_⟩
  decide

/-- The first failing DELETE makes the whole loop's transaction abort. -/
theorem exec_run_deletes_fail (fails : Nat → Bool) (l : List Nat) (db : DBState)
    (h : ∃ rid ∈ l, fails rid = true) :
    execRunDeletes fails db l = none := by
  induction l generalizing db with
  | nil =>
    rcases h with ⟨rid, hmem, _⟩
    cases hmem
  | cons a rest ih =>
    rcases h with ⟨rid, hmem, hf⟩
    by_cases ha : fails a = true
    · simp [execRunDeletes, ha]
    · rcases List.mem_cons.mp hmem with h1 | h2
      · subst h1
        exact absurd hf ha
      · simp only [execRunDeletes, ha, if_false]
        exact ih _ ⟨rid, h2, hf⟩

/-- C4 amended: a failure to delete any one stale run aborts the DELETE
loop and rolls back the single enclosing transaction, so no stale run is
deleted by that flush call at all; the exception is logged and swallowed
and the store is returned unchanged (fail-fast and atomic across the
stale-run set, not best-effort per run). -/
theorem C4_flush_fail_fast_atomic (db : DBState) (fails : Nat → Bool) (now d : Nat)
    (h : ∃ rid ∈ get_old_runs_ids db now d, fails rid = true) :
    flush_old_orders db fails now d = db := by
  unfold flush_old_orders
  rw [exec_run_deletes_fail fails _ db h]

/-- Witness for the amended C4 at the concrete two-run store. -/
theorem C4_flush_fail_fast_atomic_witness :
    (∃ rid ∈ get_old_runs_ids c4db (16 * 86400) 14, c4fails rid = true) ∧
    flush_old_orders c4db c4fails (16 * 86400) 14 = c4db :=
  ⟨⟨1, by decide, by decide⟩,
    C4_flush_fail_fast_atomic c4db c4fails (16 * 86400) 14 ⟨1, by decide, by decide⟩⟩

/-- Weekday number of a calendar day index, with the epoch aligned so a
day index that is 0 mod 7 is a Monday: models Python's
`datetime.weekday(x) + 1` (Monday 1 .. Sunday 7). -/
def weekdayOfDay (d : Nat) : Nat := d % 7 + 1

/-- `OrdersDB.get_today_weekday_int` (src lines 75-78).  Python evaluates
the default expression `date_arg=datetime.today()` once, when the `def`
statement runs (module import), so the no-argument branch uses the day
captured at definition time, `defTimeToday`; the function body never
reads the clock. -/
def get_today_weekday_int (defTimeToday : Nat) (date_arg : Option Nat) : Nat :=
  match date_arg with
  | some d => weekdayOfDay d
  | none => weekdayOfDay defTimeToday

/-- The next `program_runs` autoincrement id: one past the largest id
handed out so far. -/
def nextRunId (db : DBState) : Nat :=
  (db.runs.map (fun r => r.id)).foldl Nat.max 0 + 1

/-- Failure injection and clock for one `add_orders_to_db` invocation:
`now` is the current timestamp, `defToday` the day captured when
`get_today_weekday_int`'s default parameter was evaluated, and the
remaining fields say which runtime steps raise. -/
structure Env where
  now : Nat
  defToday : Nat
  backupBeforeFails : Bool
  backupAfterFails : Bool
  runInsertFails : Bool
  deleteFails : Nat → Bool

/-- `OrdersDB._insert_new_run` (src lines 80-93) with the default
`run_time_default=True` used by `add_orders_to_db`: INSERT INTO
program_runs with the storage-side current timestamp.  The `except
Exception` clause catches any failure, logs it at critical and returns
normally, leaving the store unchanged. -/
def insert_new_run (db : DBState) (env : Env) (weekday : Nat) : DBState :=
  if env.runInsertFails then db
  else { db with runs := db.runs ++ [⟨nextRunId db, env.now, weekday⟩] }

/-- The row produced by `SELECT id, run_time FROM program_runs ORDER BY
run_time DESC LIMIT 1` (src line 100). -/
def latestRun (runs : List RunRow) : Option RunRow :=
  runs.foldl
    (fun acc r =>
      match acc with
      | none => some r
      | some m => if m.runTime < r.runTime then some r else some m)
    none

/-- `OrdersDB._get_current_run_id` (src lines 95-108): fetches the run
with the greatest `run_time` and asserts its calendar date equals
today's.  An empty table makes the tuple unpacking of `None` raise, and
a failed assert raises `AssertionError`; neither is a
`sqlite3.OperationalError`, so both escape the method. -/
def get_current_run_id (db : DBState) (todayDate : Nat) : Except String Nat :=
  match latestRun db.runs with
  | none => Except.error "TypeError: fetchone returned no row"
  | some r =>
    if dateOf r.runTime = todayDate then Except.ok r.id
    else Except.error "AssertionError: fetched run_time date is not today"

/-- Outcome of one `add_orders_to_db` call: the store contents, whether
`self.con.close()` (src line 210) was reached, and the exception, if
any, that escaped the method. -/
structure RunOutcome where
  db : DBState
  conClosed : Bool
  err : Option String
deriving DecidableEq, Repr

/-- `OrdersDB.add_orders_to_db` (src lines 200-210): backup, insert the
new run row, resolve the current run id, insert the batch, flush old
runs, backup again, close.  The statements run in sequence with no
`try`/`finally`, so the first escaping exception terminates the method
early and the trailing `self.con.close()` is reached only when every
step before it returned normally. -/
def add_orders_to_db (ordersArg : List Order) (db0 : DBState) (env : Env) : RunOutcome :=
  if env.backupBeforeFails then ⟨db0, false, some "backup before failed"⟩
  else
    match get_current_run_id (insert_new_run db0 env (get_today_weekday_int env.defToday none))
        (dateOf env.now) with
    | Except.error e =>
      ⟨insert_new_run db0 env (get_today_weekday_int env.defToday none), false, some e⟩
    | Except.ok run_id =>
      if env.backupAfterFails then
        ⟨flush_old_orders
          (insert_multiple_orders (insert_new_run db0 env (get_today_weekday_int env.defToday none))
            ordersArg (dateOf env.now) run_id)
          env.deleteFails env.now ORDERS_ARCHIVE_DAYS, false, some "backup after failed"⟩
      else
        ⟨flush_old_orders
          (insert_multiple_orders (insert_new_run db0 env (get_today_weekday_int env.defToday none))
            ordersArg (dateOf env.now) run_id)
          env.deleteFails env.now ORDERS_ARCHIVE_DAYS, true, none⟩

/-- Inserting a run row never touches the orders table. -/
theorem insert_new_run_orders (db : DBState) (env : Env) (w : Nat) :
    (insert_new_run db env w).orders = db.orders := by
  unfold insert_new_run
  split <;> rfl

/-- C5: when the most recently created run's calendar date differs from
the current calendar date, `_get_current_run_id` raises (the assert
fails, and `AssertionError` is not caught), and `add_orders_to_db`
terminates with that exception before the order-insertion step: no order
is added under the stale run id. -/
theorem C5_stale_run_asserts (ordersArg : List Order) (db0 : DBState) (env : Env) (r : RunRow)
    (hb : env.backupBeforeFails = false)
    (hl : latestRun (insert_new_run db0 env (get_today_weekday_int env.defToday none)).runs =
      some r)
    (hd : dateOf r.runTime ≠ dateOf env.now) :
    get_current_run_id (insert_new_run db0 env (get_today_weekday_int env.defToday none))
        (dateOf env.now) =
      Except.error "AssertionError: fetched run_time date is not today" ∧
    (add_orders_to_db ordersArg db0 env).err =
      some "AssertionError: fetched run_time date is not today" ∧
    (add_orders_to_db ordersArg db0 env).db.orders = db0.orders := by
  have hcur : get_current_run_id
      (insert_new_run db0 env (get_today_weekday_int env.defToday none)) (dateOf env.now) =
      Except.error "AssertionError: fetched run_time date is not today" := by
    unfold get_current_run_id
    rw [hl]
    exact if_neg hd
  have hout : add_orders_to_db ordersArg db0 env =
      ⟨insert_new_run db0 env (get_today_weekday_int env.defToday none), false,
        some "AssertionError: fetched run_time date is not today"⟩ := by
    unfold add_orders_to_db
    rw [hb, hcur]
    simp
  refine ⟨hcur, ?_, ?_⟩
  · rw [hout]
  · rw [hout]
    exact insert_new_run_orders db0 env (get_today_weekday_int env.defToday none)

/-- Store for the C5 witness: its only run was created on day 0. -/
def c5db : DBState := ⟨[⟨1, 0, 1⟩], []⟩

/-- Clock for the C5 witness: the call happens on day 1 and the
run-insert step fails, so the latest run stays the stale day-0 one. -/
def c5env : Env := ⟨86400, 1, false, false, true, fun _ => false⟩

/-- Witness for C5 at the concrete stale store. -/
theorem C5_stale_run_asserts_witness :
    get_current_run_id (insert_new_run c5db c5env (get_today_weekday_int c5env.defToday none))
        (dateOf c5env.now) =
      Except.error "AssertionError: fetched run_time date is not today" ∧
    (add_orders_to_db [⟨"A1", "p", "q", "Bob"⟩] c5db c5env).err =
      some "AssertionError: fetched run_time date is not today" ∧
    (add_orders_to_db [⟨"A1", "p", "q", "Bob"⟩] c5db c5env).db.orders = c5db.orders :=
  C5_stale_run_asserts [⟨"A1", "p", "q", "Bob"⟩] c5db c5env ⟨1, 0, 1⟩ (by decide) (by decide)
    (by decide)

/-- Store for the C6 counterexample: one pre-existing run created on
day 5 (today). -/
def c6db : DBState := ⟨[⟨1, 5 * 86400, 1⟩], []⟩

/-- Environment for the C6 counterexample: the INSERT of the new run row
fails; everything else succeeds. -/
def c6env : Env := ⟨5 * 86400 + 100, 5, false, false, true, fun _ => false⟩

/-- C6 counterexample: the run-insert step fails, yet `add_orders_to_db`
carries on — the current-run query resolves the pre-existing run 1 and
the batch is inserted under it, and the whole call finishes without any
error.  This contradicts the claim that a failed run insert propagates
and stops the operation before order insertion. -/
theorem C6_counterexample :
    c6env.runInsertFails = true ∧
    (add_orders_to_db [⟨"X1", "pd", "pay", "Bob"⟩] c6db c6env).db.orders =
      [⟨"X1", "pd", "pay", "Bob", 5, 1⟩] ∧
    (add_orders_to_db [⟨"X1", "pd", "pay", "Bob"⟩] c6db c6env).err = none := by
  refine ⟨rfl, ?_, ?_⟩ <;> decide

/-- C6 amended: a failure to insert the new run row is logged at
critical severity but swallowed by `_insert_new_run`'s blanket `except`,
which returns normally with the store unchanged; `add_orders_to_db` then
continues to the current-run resolution and the order-insertion steps,
ingesting the batch under the most recent pre-existing run when that
run is dated today. -/
theorem C6_run_insert_failure_swallowed (ordersArg : List Order) (db : DBState) (env : Env)
    (r : RunRow)
    (h : env.runInsertFails = true)
    (hb : env.backupBeforeFails = false)
    (hl : latestRun db.runs = some r)
    (hd : dateOf r.runTime = dateOf env.now) :
    insert_new_run db env (get_today_weekday_int env.defToday none) = db ∧
    add_orders_to_db ordersArg db env =
      (if env.backupAfterFails then
        ⟨flush_old_orders (insert_multiple_orders db ordersArg (dateOf env.now) r.id)
          env.deleteFails env.now ORDERS_ARCHIVE_DAYS, false, some "backup after failed"⟩
      else
        ⟨flush_old_orders (insert_multiple_orders db ordersArg (dateOf env.now) r.id)
          env.deleteFails env.now ORDERS_ARCHIVE_DAYS, true, none⟩) := by
  have hw : insert_new_run db env (get_today_weekday_int env.defToday none) = db := by
    unfold insert_new_run
    rw [h]
    simp
  have hcur : get_current_run_id db (dateOf env.now) = Except.ok r.id := by
    unfold get_current_run_id
    rw [hl]
    exact if_pos hd
  refine ⟨hw, ?_⟩
  unfold add_orders_to_db
  rw [hb, hw, hcur]
  simp

/-- Witness for the amended C6 at the concrete store and environment. -/
theorem C6_run_insert_failure_swallowed_witness :
    insert_new_run c6db c6env (get_today_weekday_int c6env.defToday none) = c6db ∧
    add_orders_to_db [⟨"X1", "pd", "pay", "Bob"⟩] c6db c6env =
      (if c6env.backupAfterFails then
        ⟨flush_old_orders
          (insert_multiple_orders c6db [⟨"X1", "pd", "pay", "Bob"⟩] (dateOf c6env.now) 1)
          c6env.deleteFails c6env.now ORDERS_ARCHIVE_DAYS, false, some "backup after failed"⟩
      else
        ⟨flush_old_orders
          (insert_multiple_orders c6db [⟨"X1", "pd", "pay", "Bob"⟩] (dateOf c6env.now) 1)
          c6env.deleteFails c6env.now ORDERS_ARCHIVE_DAYS, true, none⟩) :=
  C6_run_insert_failure_swallowed [⟨"X1", "pd", "pay", "Bob"⟩] c6db c6env ⟨1, 5 * 86400, 1⟩
    rfl rfl (by decide) (by decide)

/-- Environment for the C7 counterexample: the pre-run backup fails. -/
def c7env : Env := ⟨0, 0, true, false, false, fun _ => false⟩

/-- C7 counterexample: when the pre-run backup raises, the method exits
with that exception before reaching the trailing `self.con.close()`;
the connection is left open, contrary to the claim that every exit path
closes it. -/
theorem C7_counterexample :
    ((add_orders_to_db [] ⟨[], []⟩ c7env).err).isSome = true ∧
    (add_orders_to_db [] ⟨[], []⟩ c7env).conClosed = false := by
  decide

/-- C7 amended: `add_orders_to_db` closes the store connection only on
the fully successful path; whenever an intermediate step fails, the
exception propagates out of the method body (there is no `try`/`finally`
or context manager) and `self.con.close()` is never executed. -/
theorem C7_close_only_on_success (ordersArg : List Order) (db : DBState) (env : Env) :
    (add_orders_to_db ordersArg db env).conClosed = true ↔
      (add_orders_to_db ordersArg db env).err = none := by
  unfold add_orders_to_db
  split
  · simp
  · split
    · simp
    · split <;> simp

/-- Presence flags for the two tables of the schema. -/
structure SchemaState where
  programRunsTable : Bool
  ordersTable : Bool
deriving DecidableEq, Repr

/-- Kind of exception raised by a storage statement: sqlite3 raises
`OperationalError` for a CREATE TABLE whose table already exists. -/
inductive DBErr where
  | operational (msg : String)
  | other (msg : String)
deriving DecidableEq, Repr

/-- One `CREATE TABLE` statement: raises `sqlite3.OperationalError` when
the table already exists, otherwise creates it. -/
def createTable (alreadyThere : Bool) : Except DBErr Unit :=
  if alreadyThere then Except.error (DBErr.operational "table already exists")
  else Except.ok ()

/-- The first `try` block of `__create_schema` (src lines 40-46):
CREATE TABLE program_runs, with `except sqlite3.OperationalError`
logging at debug and continuing; any other exception would escape. -/
def createRunsTableStep (s : SchemaState) : Except DBErr SchemaState :=
  match createTable s.programRunsTable with
  | Except.ok _ => Except.ok { s with programRunsTable := true }
  | Except.error (DBErr.operational _) => Except.ok s
  | Except.error e => Except.error e

/-- The second `try` block of `__create_schema` (src lines 48-59):
CREATE TABLE orders, same handling. -/
def createOrdersTableStep (s : SchemaState) : Except DBErr SchemaState :=
  match createTable s.ordersTable with
  | Except.ok _ => Except.ok { s with ordersTable := true }
  | Except.error (DBErr.operational _) => Except.ok s
  | Except.error e => Except.error e

/-- `OrdersDB.__create_schema` (src lines 38-60): the two guarded CREATE
TABLE statements in sequence. -/
def create_schema (s : SchemaState) : Except DBErr SchemaState :=
  match createRunsTableStep s with
  | Except.ok s1 => createOrdersTableStep s1
  | Except.error e => Except.error e

/-- C8: schema creation is idempotent and never raises to the caller:
from any starting state — in particular when both tables already exist,
where each CREATE's already-exists `OperationalError` is caught and
logged at debug — `__create_schema` returns normally with both tables
present; a pre-existing schema is left exactly as it was. -/
theorem C8_schema_idempotent (s : SchemaState) :
    create_schema s = Except.ok ⟨true, true⟩ := by
  rcases s with ⟨pr, od⟩
  cases pr <;> cases od <;> rfl

/-- C9: in the code the no-argument result of `get_today_weekday_int`
depends only on the day captured when the default parameter was
evaluated at definition time, never on the day of the call.  Concretely,
a helper defined on a Monday (day 0) and called with no argument on the
following Tuesday (day 1) returns 1 (Monday), whereas the claim requires
the call-time weekday 2 (Tuesday). -/
theorem C9_default_captured_at_def_time :
    (∀ defDay : Nat, get_today_weekday_int defDay none = weekdayOfDay defDay) ∧
    weekdayOfDay 0 = 1 ∧ weekdayOfDay 1 = 2 ∧ (1 : Nat) ≠ 2 :=
  ⟨fun _ => rfl, rfl, rfl, by decide⟩

end OrdersDB
